import Mathlib

/-!
Verification of the justified-gallery layout engine of the asana-gallery
repository.  The engine exists in two source variants:

* `AsanaGalleryJs` embeds `src/src/AsanaGallery.js` (Math.round in both
  rescale stages, parity-based spacing subtraction written inline);
* `Part000` embeds `src/unnamed/part_000` (Math.round in Stage A,
  Math.floor in Stage B, spacing subtraction via `getSpaceToUse`).

JavaScript numbers are modelled as exact rationals; `Math.round` is
floor (x + 1/2) (JS rounds ties towards positive infinity) and
`Math.floor` is the integer floor.  The opaque payload carried by a frame
(its `img` field) is modelled as a natural number.
-/

/-- JavaScript Math.round on an exact rational: floor (x + 1/2). -/
def jsRound (x : ℚ) : ℤ := ⌊x + 1 / 2⌋

/-- An input frame: original image dimensions plus the opaque payload
(the `img` reference). -/
structure Frame where
  height : ℚ
  width : ℚ
  img : ℕ
deriving DecidableEq

/-- A scaled frame as built by the engine (`{height, width, img}` objects). -/
structure SFrame where
  height : ℚ
  width : ℚ
  img : ℕ
deriving DecidableEq

/-- Sum of the width fields of a row of scaled frames. -/
def sumWidths (row : List SFrame) : ℚ :=
  (row.map SFrame.width).sum

/-- The function adjustHeight, identical in both source files:
ratio = frame.height / frame.width and the result is
height = maxHeight, width = Math.round (maxHeight / ratio). -/
def adjustHeight (frame : Frame) (maxHeight : ℚ) : SFrame :=
  let ratio := frame.height / frame.width
  { height := maxHeight, width := (jsRound (maxHeight / ratio) : ℚ), img := frame.img }

/-- The loop state of layoutFrames in both variants: the layout built so
far, the running width accumulator and the row buffer. -/
structure LoopState where
  layout : List (List SFrame)
  rowSize : ℚ
  row : List SFrame
deriving DecidableEq

/-- The target height for the next frame: the ternary
row.length > 0 ? row[0].height : maxRowHeight of both source variants. -/
def targetHeight (maxRowHeight : ℚ) (row : List SFrame) : ℚ :=
  match row with | [] => maxRowHeight | c :: _ => c.height

namespace AsanaGalleryJs

/-- The function adjustRowWidth of src/src/AsanaGallery.js: ratio =
containerWidth / rowSize; each column is rescaled with Math.round and the
inline parity rule decides which columns get spacing subtracted. -/
def adjustRowWidth (row : List SFrame) (rowSize containerWidth spacing : ℚ) :
    List SFrame :=
  let ratio := containerWidth / rowSize
  row.mapIdx fun index column =>
    { height := (jsRound (column.height * ratio) : ℚ),
      width := (jsRound (column.width * ratio) : ℚ) -
        (if row.length % 2 = 0 ∨ (1 < row.length ∧ (index + 1) % 2 = 1)
          then spacing else 0),
      img := column.img }

/-- One iteration of the layoutFrames loop of src/src/AsanaGallery.js. -/
def step (containerWidth maxRowHeight spacing : ℚ) (s : LoopState)
    (frame : Frame) : LoopState :=
  let maxHeight := targetHeight maxRowHeight s.row
  let sf := adjustHeight frame maxHeight
  let row := s.row ++ [sf]
  let rowSize := s.rowSize + sf.width
  if containerWidth ≤ rowSize then
    { layout := s.layout ++ [adjustRowWidth row rowSize containerWidth spacing],
      rowSize := 0, row := [] }
  else
    { layout := s.layout, rowSize := rowSize, row := row }

/-- The state of the layoutFrames loop after all frames are processed. -/
def stageAState (frames : List Frame) (containerWidth maxRowHeight spacing : ℚ) :
    LoopState :=
  frames.foldl (step containerWidth maxRowHeight spacing)
    { layout := [], rowSize := 0, row := [] }

/-- The function layoutFrames of src/src/AsanaGallery.js: run the loop,
then push the leftover row buffer if it is non-empty. -/
def layoutFrames (frames : List Frame) (containerWidth maxRowHeight spacing : ℚ) :
    List (List SFrame) :=
  let s := stageAState frames containerWidth maxRowHeight spacing
  if 0 < s.row.length then s.layout ++ [s.row] else s.layout

end AsanaGalleryJs

namespace Part000

/-- The function getSpaceToUse of src/unnamed/part_000. -/
def getSpaceToUse (row : List SFrame) (index : ℕ) (spacing : ℚ) : ℚ :=
  if 2 < row.length ∧ (row.length % 2 = 0 ∨ 0 < index) then spacing
  else if row.length = 2 ∧ index = 0 then spacing
  else 0

/-- The function adjustRowWidth of src/unnamed/part_000: ratio =
containerWidth / rowSize; each column is rescaled with Math.floor and
getSpaceToUse decides the spacing subtraction. -/
def adjustRowWidth (row : List SFrame) (rowSize containerWidth spacing : ℚ) :
    List SFrame :=
  let ratio := containerWidth / rowSize
  row.mapIdx fun index column =>
    { height := (⌊column.height * ratio⌋ : ℚ),
      width := (⌊column.width * ratio⌋ : ℚ) - getSpaceToUse row index spacing,
      img := column.img }

/-- One iteration of the layoutFrames loop of src/unnamed/part_000. -/
def step (containerWidth maxRowHeight spacing : ℚ) (s : LoopState)
    (frame : Frame) : LoopState :=
  let maxHeight := targetHeight maxRowHeight s.row
  let sf := adjustHeight frame maxHeight
  let row := s.row ++ [sf]
  let rowSize := s.rowSize + sf.width
  if containerWidth ≤ rowSize then
    { layout := s.layout ++ [adjustRowWidth row rowSize containerWidth spacing],
      rowSize := 0, row := [] }
  else
    { layout := s.layout, rowSize := rowSize, row := row }

/-- The state of the layoutFrames loop of src/unnamed/part_000 after all
frames are processed. -/
def stageAState (frames : List Frame) (containerWidth maxRowHeight spacing : ℚ) :
    LoopState :=
  frames.foldl (step containerWidth maxRowHeight spacing)
    { layout := [], rowSize := 0, row := [] }

/-- The function layoutFrames of src/unnamed/part_000. -/
def layoutFrames (frames : List Frame) (containerWidth maxRowHeight spacing : ℚ) :
    List (List SFrame) :=
  let s := stageAState frames containerWidth maxRowHeight spacing
  if 0 < s.row.length then s.layout ++ [s.row] else s.layout

end Part000

/-- Recursive presentation of the layoutFrames loop of
src/src/AsanaGallery.js: the rows emitted when the loop continues from a
given buffer and accumulator.  Proved equal to the foldl formulation in
AsanaGalleryJs.layoutFrames_eq_buildRows below. -/
def AsanaGalleryJs.buildRows (containerWidth maxRowHeight spacing : ℚ) :
    List Frame → ℚ → List SFrame → List (List SFrame)
  | [], _, row => if 0 < row.length then [row] else []
  | frame :: frames, rowSize, row =>
    let maxHeight := targetHeight maxRowHeight row
    let sf := adjustHeight frame maxHeight
    let row' := row ++ [sf]
    let rowSize' := rowSize + sf.width
    if containerWidth ≤ rowSize' then
      adjustRowWidth row' rowSize' containerWidth spacing ::
        buildRows containerWidth maxRowHeight spacing frames 0 []
    else
      buildRows containerWidth maxRowHeight spacing frames rowSize' row'

/-- Sum of the rounded, rescaled widths of a row (the Stage B widths
before any spacing subtraction). -/
def roundedSum (row : List SFrame) (ratio : ℚ) : ℚ :=
  (row.map fun c => ((jsRound (c.width * ratio) : ℚ))).sum

/-- Total spacing subtracted from the frames of a completed row of
length n by the parity rule of src/src/AsanaGallery.js. -/
def totalSubtracted (n : ℕ) (spacing : ℚ) : ℚ :=
  ((List.range n).map fun index =>
    if n % 2 = 0 ∨ (1 < n ∧ (index + 1) % 2 = 1) then spacing else 0).sum

/-- A pre-correction (Stage A) row: every frame has the working height H
and carries the rounded rescaled width of some positive input frame. -/
def goodRow (H : ℚ) (fs : List Frame) (row : List SFrame) : Prop :=
  ∀ sf ∈ row, sf.height = H ∧ ∃ f, f ∈ fs ∧ sf.img = f.img ∧
    0 < f.width ∧ 0 < f.height ∧ sf.width = (jsRound (H * f.width / f.height) : ℚ)

/-- A generous reading of the tolerance asserted by the aspect-ratio
claim: one pixel of integer rounding on the width at each of the two
rescale stages, plus one pixel of rounding on the height amplified by
the original aspect ratio, all divided by the output height.  Any
tolerance that accounts only for rounding is below this. -/
def roundingTolerance (origHeight origWidth outHeight : ℚ) : ℚ :=
  (2 + 2 * (origWidth / origHeight)) / outHeight

lemma jsRound_cast_le (x : ℚ) : (jsRound x : ℚ) ≤ x + 1 / 2 := by
  simpa [jsRound] using Int.floor_le (x + 1 / 2)

lemma lt_jsRound_cast (x : ℚ) : x - 1 / 2 < (jsRound x : ℚ) := by
  have h := Int.lt_floor_add_one (x + 1 / 2)
  simp only [jsRound]
  linarith

lemma abs_jsRound_sub (x : ℚ) : |(jsRound x : ℚ) - x| ≤ 1 / 2 := by
  rw [abs_le]
  constructor
  · linarith [lt_jsRound_cast x]
  · linarith [jsRound_cast_le x]

lemma jsRound_le_of_le {x : ℚ} {k : ℤ} (h : x ≤ (k : ℚ)) : jsRound x ≤ k := by
  have h1 : jsRound x ≤ ⌊(k : ℚ) + 1 / 2⌋ := by
    simp only [jsRound]
    exact Int.floor_le_floor (by linarith)
  have h2 : ⌊(k : ℚ) + 1 / 2⌋ = k := by
    rw [add_comm, Int.floor_add_int]
    norm_num
  omega

lemma sumWidths_nil : sumWidths [] = 0 := rfl

lemma sumWidths_cons (c : SFrame) (l : List SFrame) :
    sumWidths (c :: l) = c.width + sumWidths l := by
  simp [sumWidths]

lemma sumWidths_append (l₁ l₂ : List SFrame) :
    sumWidths (l₁ ++ l₂) = sumWidths l₁ + sumWidths l₂ := by
  simp [sumWidths]

lemma sumWidths_singleton (c : SFrame) : sumWidths [c] = c.width := by
  simp [sumWidths]

lemma adjustHeight_eq (f : Frame) (m : ℚ) :
    adjustHeight f m =
      { height := m, width := (jsRound (m * f.width / f.height) : ℚ), img := f.img } := by
  simp [adjustHeight, div_div_eq_mul_div]

lemma map_img_mapIdx (F : ℕ → SFrame → SFrame)
    (hF : ∀ i c, (F i c).img = c.img) :
    ∀ l : List SFrame, (l.mapIdx F).map SFrame.img = l.map SFrame.img := by
  intro l
  induction l generalizing F with
  | nil => simp
  | cons c t ih => simp [List.mapIdx_cons, hF, ih (fun i => F (i + 1)) (fun i c => hF (i + 1) c)]

lemma AsanaGalleryJs.adjustRowWidthA_map_img (row : List SFrame) (R W S : ℚ) :
    (adjustRowWidth row R W S).map SFrame.img = row.map SFrame.img := by
  apply map_img_mapIdx
  intro i c
  rfl

lemma Part000.adjustRowWidthB_map_img (row : List SFrame) (R W S : ℚ) :
    (adjustRowWidth row R W S).map SFrame.img = row.map SFrame.img := by
  apply map_img_mapIdx
  intro i c
  rfl

lemma AsanaGalleryJs.adjustRowWidth_length (row : List SFrame) (R W S : ℚ) :
    (adjustRowWidth row R W S).length = row.length := by
  simp [adjustRowWidth]

lemma target_height_eq (H : ℚ) (row : List SFrame)
    (hrow : ∀ sf ∈ row, sf.height = H) :
    targetHeight H row = H := by
  cases row with
  | nil => rfl
  | cons c cs => exact hrow c (List.mem_cons_self c cs)

lemma AsanaGalleryJs.foldl_step_buildRows (W H S : ℚ) :
    ∀ (fs : List Frame) (L : List (List SFrame)) (rs : ℚ) (row : List SFrame),
      (if 0 < ((fs.foldl (step W H S) ⟨L, rs, row⟩).row.length)
        then (fs.foldl (step W H S) ⟨L, rs, row⟩).layout
          ++ [(fs.foldl (step W H S) ⟨L, rs, row⟩).row]
        else (fs.foldl (step W H S) ⟨L, rs, row⟩).layout)
      = L ++ buildRows W H S fs rs row := by
  intro fs
  induction fs with
  | nil =>
    intro L rs row
    simp only [List.foldl_nil, buildRows]
    by_cases h : 0 < row.length
    · simp [h]
    · simp [h]
  | cons f t ih =>
    intro L rs row
    simp only [List.foldl_cons, step, buildRows]
    by_cases h : W ≤ rs +
        (adjustHeight f (targetHeight H row)).width
    · simp only [if_pos h]
      rw [ih]
      simp
    · simp only [if_neg h]
      exact ih L (rs + (adjustHeight f
        (targetHeight H row)).width)
        (row ++ [adjustHeight f (targetHeight H row)])

lemma AsanaGalleryJs.layoutFrames_eq_buildRows (fs : List Frame) (W H S : ℚ) :
    layoutFrames fs W H S = buildRows W H S fs 0 [] := by
  have h := foldl_step_buildRows W H S fs [] 0 []
  simpa [layoutFrames, stageAState] using h

lemma AsanaGalleryJs.buildRows_flatten_img (W H S : ℚ) :
    ∀ (fs : List Frame) (rs : ℚ) (row : List SFrame),
      (buildRows W H S fs rs row).flatten.map SFrame.img
        = row.map SFrame.img ++ fs.map Frame.img := by
  intro fs
  induction fs with
  | nil =>
    intro rs row
    by_cases h : 0 < row.length
    · simp [buildRows, h]
    · have hrow : row = [] := List.length_eq_zero.mp (by omega)
      simp [buildRows, h, hrow]
  | cons f t ih =>
    intro rs row
    simp only [buildRows]
    by_cases h : W ≤ rs +
        (adjustHeight f (targetHeight H row)).width
    · rw [if_pos h]
      simp only [List.flatten_cons, List.map_append, adjustRowWidthA_map_img, ih,
        List.map_cons, List.map_nil, List.nil_append]
      simp [adjustHeight]
    · rw [if_neg h]
      rw [ih]
      simp [adjustHeight]

lemma AsanaGalleryJs.buildRows_heights (W H S : ℚ) :
    ∀ (fs : List Frame) (rs : ℚ) (row : List SFrame),
      rs = sumWidths row → (∀ sf ∈ row, sf.height = H) →
      ∀ q ∈ buildRows W H S fs rs row,
        (∃ r, (∀ sf ∈ r, sf.height = H) ∧ 0 < r.length ∧ W ≤ sumWidths r ∧
            q = adjustRowWidth r (sumWidths r) W S)
          ∨ (∀ sf ∈ q, sf.height = H) := by
  intro fs
  induction fs with
  | nil =>
    intro rs row hacc hrow q hq
    by_cases h : 0 < row.length
    · simp only [buildRows, if_pos h, List.mem_singleton] at hq
      exact Or.inr (hq ▸ hrow)
    · simp [buildRows, h] at hq
  | cons f t ih =>
    intro rs row hacc hrow q hq
    simp only [buildRows] at hq
    have hsf : (adjustHeight f (targetHeight H row)).height = H := by
      rw [target_height_eq H row hrow]
      rfl
    have hrow' : ∀ sf ∈ row ++ [adjustHeight f (targetHeight H row)], sf.height = H := by
      intro sf hsf'
      rcases List.mem_append.mp hsf' with hm | hm
      · exact hrow sf hm
      · rw [List.mem_singleton.mp hm]
        exact hsf
    have hacc' : rs + (adjustHeight f (targetHeight H row)).width
        = sumWidths (row ++ [adjustHeight f (targetHeight H row)]) := by
      rw [sumWidths_append, sumWidths_singleton, hacc]
    by_cases h : W ≤ rs + (adjustHeight f (targetHeight H row)).width
    · rw [if_pos h] at hq
      rcases List.mem_cons.mp hq with hq | hq
      · refine Or.inl ⟨row ++ [adjustHeight f (targetHeight H row)], hrow', by simp, ?_, ?_⟩
        · rw [← hacc']
          exact h
        · rw [hq, hacc']
      · exact ih 0 [] (by simp [sumWidths]) (by simp) q hq
    · rw [if_neg h] at hq
      exact ih (rs + (adjustHeight f (targetHeight H row)).width)
        (row ++ [adjustHeight f (targetHeight H row)]) hacc' hrow' q hq

lemma AsanaGalleryJs.buildRows_completed (W H S : ℚ) :
    ∀ (fs : List Frame) (rs : ℚ) (row : List SFrame),
      rs = sumWidths row →
      ∀ i, i + 1 < (buildRows W H S fs rs row).length →
        ∃ r, 0 < r.length ∧ W ≤ sumWidths r ∧
          (buildRows W H S fs rs row).getD i [] = adjustRowWidth r (sumWidths r) W S := by
  intro fs
  induction fs with
  | nil =>
    intro rs row hacc i hi
    by_cases h : 0 < row.length <;> simp [buildRows, h] at hi
  | cons f t ih =>
    intro rs row hacc i hi
    simp only [buildRows] at hi ⊢
    have hacc' : rs + (adjustHeight f (targetHeight H row)).width
        = sumWidths (row ++ [adjustHeight f (targetHeight H row)]) := by
      rw [sumWidths_append, sumWidths_singleton, hacc]
    by_cases h : W ≤ rs + (adjustHeight f (targetHeight H row)).width
    · rw [if_pos h] at hi ⊢
      cases i with
      | zero =>
        refine ⟨row ++ [adjustHeight f (targetHeight H row)], by simp, ?_, ?_⟩
        · rw [← hacc']
          exact h
        · rw [List.getD_cons_zero, hacc']
      | succ k =>
        have hi' : k + 1 < (buildRows W H S t 0 []).length := by
          simp only [List.length_cons] at hi
          omega
        have hk := ih 0 [] (by simp [sumWidths]) k hi'
        simpa [List.getD_cons_succ] using hk
    · rw [if_neg h] at hi ⊢
      exact ih (rs + (adjustHeight f (targetHeight H row)).width)
        (row ++ [adjustHeight f (targetHeight H row)]) hacc' i hi

lemma AsanaGalleryJs.buildRows_good (W H S : ℚ) (fs0 : List Frame) :
    ∀ (fs : List Frame), (∀ f ∈ fs, f ∈ fs0 ∧ 0 < f.width ∧ 0 < f.height) →
      ∀ (rs : ℚ) (row : List SFrame), rs = sumWidths row → goodRow H fs0 row →
      ∀ q ∈ buildRows W H S fs rs row,
        (∃ r, goodRow H fs0 r ∧ 0 < r.length ∧ W ≤ sumWidths r ∧
            q = adjustRowWidth r (sumWidths r) W S)
          ∨ goodRow H fs0 q := by
  intro fs
  induction fs with
  | nil =>
    intro _ rs row hacc hrow q hq
    by_cases h : 0 < row.length
    · simp only [buildRows, if_pos h, List.mem_singleton] at hq
      exact Or.inr (hq ▸ hrow)
    · simp [buildRows, h] at hq
  | cons f t ih =>
    intro hfs rs row hacc hrow q hq
    have hf := hfs f (List.mem_cons_self f t)
    have hth : targetHeight H row = H :=
      target_height_eq H row fun sf h => (hrow sf h).1
    simp only [buildRows] at hq
    have hrow' : goodRow H fs0 (row ++ [adjustHeight f (targetHeight H row)]) := by
      intro sf hsf'
      rcases List.mem_append.mp hsf' with hm | hm
      · exact hrow sf hm
      · rw [List.mem_singleton.mp hm, hth, adjustHeight_eq]
        exact ⟨rfl, f, hf.1, rfl, hf.2.1, hf.2.2, rfl⟩
    have hacc' : rs + (adjustHeight f (targetHeight H row)).width
        = sumWidths (row ++ [adjustHeight f (targetHeight H row)]) := by
      rw [sumWidths_append, sumWidths_singleton, hacc]
    by_cases h : W ≤ rs + (adjustHeight f (targetHeight H row)).width
    · rw [if_pos h] at hq
      rcases List.mem_cons.mp hq with hq | hq
      · refine Or.inl ⟨row ++ [adjustHeight f (targetHeight H row)], hrow', by simp, ?_, ?_⟩
        · rw [← hacc']
          exact h
        · rw [hq, hacc']
      · exact ih (fun g hg => hfs g (List.mem_cons_of_mem f hg)) 0 []
          (by simp [sumWidths]) (by intro sf hsf'; simp at hsf') q hq
    · rw [if_neg h] at hq
      exact ih (fun g hg => hfs g (List.mem_cons_of_mem f hg))
        (rs + (adjustHeight f (targetHeight H row)).width)
        (row ++ [adjustHeight f (targetHeight H row)]) hacc' hrow' q hq

lemma roundedSum_nil (ratio : ℚ) : roundedSum [] ratio = 0 := rfl

lemma roundedSum_cons (c : SFrame) (t : List SFrame) (ratio : ℚ) :
    roundedSum (c :: t) ratio = (jsRound (c.width * ratio) : ℚ) + roundedSum t ratio := by
  simp [roundedSum]

lemma sumWidths_mapIdx_round (ratio : ℚ) :
    ∀ (l : List SFrame) (A : ℕ → SFrame → ℚ) (g : ℕ → ℚ),
      sumWidths (l.mapIdx fun i c =>
          { height := A i c, width := (jsRound (c.width * ratio) : ℚ) - g i,
            img := c.img })
        = roundedSum l ratio - ((List.range l.length).map g).sum := by
  intro l
  induction l with
  | nil =>
    intro A g
    simp [sumWidths, roundedSum]
  | cons c t ih =>
    intro A g
    have hr : ((List.range (t.length + 1)).map g).sum
        = g 0 + ((List.range t.length).map fun i => g (i + 1)).sum := by
      rw [List.range_succ_eq_map]
      simp [List.map_map, Function.comp_def, Nat.succ_eq_add_one]
    simp only [List.mapIdx_cons, sumWidths_cons, List.length_cons, hr,
      roundedSum_cons]
    rw [ih (fun i => A (i + 1)) (fun i => g (i + 1))]
    ring

lemma AsanaGalleryJs.adjustRowWidth_sum (row : List SFrame) (R W S : ℚ) :
    sumWidths (adjustRowWidth row R W S)
      = roundedSum row (W / R) - totalSubtracted row.length S := by
  have h := sumWidths_mapIdx_round (W / R) row
    (fun _ c => (jsRound (c.height * (W / R)) : ℚ))
    (fun i => if row.length % 2 = 0 ∨ (1 < row.length ∧ (i + 1) % 2 = 1)
      then S else 0)
  simpa [adjustRowWidth, totalSubtracted] using h

lemma roundedSum_bound (ratio : ℚ) :
    ∀ l : List SFrame, |roundedSum l ratio - ratio * sumWidths l| ≤ (l.length : ℚ) / 2 := by
  intro l
  induction l with
  | nil => simp [roundedSum, sumWidths]
  | cons c t ih =>
    have hkey : roundedSum (c :: t) ratio - ratio * sumWidths (c :: t)
        = ((jsRound (c.width * ratio) : ℚ) - c.width * ratio)
          + (roundedSum t ratio - ratio * sumWidths t) := by
      rw [roundedSum_cons, sumWidths_cons]
      ring
    rw [hkey]
    calc |((jsRound (c.width * ratio) : ℚ) - c.width * ratio)
          + (roundedSum t ratio - ratio * sumWidths t)|
        ≤ |(jsRound (c.width * ratio) : ℚ) - c.width * ratio|
          + |roundedSum t ratio - ratio * sumWidths t| := abs_add _ _
      _ ≤ 1 / 2 + (t.length : ℚ) / 2 := add_le_add (abs_jsRound_sub _) ih
      _ = ((c :: t).length : ℚ) / 2 := by
          rw [List.length_cons]
          push_cast
          ring

lemma AsanaGalleryJs.foldl_inv (W H S : ℚ) (hW : 0 < W) :
    ∀ (fs : List Frame) (s : LoopState),
      s.rowSize = sumWidths s.row → s.rowSize < W → (∀ sf ∈ s.row, sf.height = H) →
      (fs.foldl (step W H S) s).rowSize = sumWidths (fs.foldl (step W H S) s).row
      ∧ (fs.foldl (step W H S) s).rowSize < W
      ∧ ∀ sf ∈ (fs.foldl (step W H S) s).row, sf.height = H := by
  intro fs
  induction fs with
  | nil =>
    intro s h1 h2 h3
    exact ⟨h1, h2, h3⟩
  | cons f t ih =>
    intro s h1 h2 h3
    rw [List.foldl_cons]
    by_cases h : W ≤ s.rowSize + (adjustHeight f (targetHeight H s.row)).width
    · have hs : step W H S s f =
          { layout := s.layout ++ [adjustRowWidth
              (s.row ++ [adjustHeight f (targetHeight H s.row)])
              (s.rowSize + (adjustHeight f (targetHeight H s.row)).width) W S],
            rowSize := 0, row := [] } := by
        simp [step, h]
      rw [hs]
      exact ih _ (by simp [sumWidths]) (by simpa) (by simp)
    · have hs : step W H S s f =
          { layout := s.layout,
            rowSize := s.rowSize + (adjustHeight f (targetHeight H s.row)).width,
            row := s.row ++ [adjustHeight f (targetHeight H s.row)] } := by
        simp [step, h]
      rw [hs]
      refine ih _ ?_ ?_ ?_
      · simp only [sumWidths_append, sumWidths_singleton, h1]
      · simpa using lt_of_not_le h
      · intro sf hsf
        rcases List.mem_append.mp hsf with hm | hm
        · exact h3 sf hm
        · rw [List.mem_singleton.mp hm]
          rw [target_height_eq H s.row h3]
          rfl

lemma AsanaGalleryJs.foldl_heights (W H S : ℚ) :
    ∀ (fs : List Frame) (s : LoopState), (∀ sf ∈ s.row, sf.height = H) →
      ∀ sf ∈ (fs.foldl (step W H S) s).row, sf.height = H := by
  intro fs
  induction fs with
  | nil =>
    intro s h3
    exact h3
  | cons f t ih =>
    intro s h3
    rw [List.foldl_cons]
    by_cases h : W ≤ s.rowSize + (adjustHeight f (targetHeight H s.row)).width
    · have hs : step W H S s f =
          { layout := s.layout ++ [adjustRowWidth
              (s.row ++ [adjustHeight f (targetHeight H s.row)])
              (s.rowSize + (adjustHeight f (targetHeight H s.row)).width) W S],
            rowSize := 0, row := [] } := by
        simp [step, h]
      rw [hs]
      exact ih _ (by simp)
    · have hs : step W H S s f =
          { layout := s.layout,
            rowSize := s.rowSize + (adjustHeight f (targetHeight H s.row)).width,
            row := s.row ++ [adjustHeight f (targetHeight H s.row)] } := by
        simp [step, h]
      rw [hs]
      refine ih _ ?_
      intro sf hsf
      rcases List.mem_append.mp hsf with hm | hm
      · exact h3 sf hm
      · rw [List.mem_singleton.mp hm]
        rw [target_height_eq H s.row h3]
        rfl

lemma ab_step (W H S : ℚ) (sA sB : LoopState) (f : Frame)
    (h1 : sB.row = sA.row) (h2 : sB.rowSize = sA.rowSize)
    (h3 : sB.layout.map (List.map SFrame.img) = sA.layout.map (List.map SFrame.img)) :
    (Part000.step W H S sB f).row = (AsanaGalleryJs.step W H S sA f).row
    ∧ (Part000.step W H S sB f).rowSize = (AsanaGalleryJs.step W H S sA f).rowSize
    ∧ (Part000.step W H S sB f).layout.map (List.map SFrame.img)
        = (AsanaGalleryJs.step W H S sA f).layout.map (List.map SFrame.img) := by
  simp only [Part000.step, AsanaGalleryJs.step, h1, h2]
  by_cases h : W ≤ sA.rowSize + (adjustHeight f (targetHeight H sA.row)).width
  · simp [h, h3, Part000.adjustRowWidthB_map_img, AsanaGalleryJs.adjustRowWidthA_map_img]
  · simp [h, h3]

lemma ab_foldl (W H S : ℚ) :
    ∀ (fs : List Frame) (sA sB : LoopState),
      sB.row = sA.row → sB.rowSize = sA.rowSize →
      sB.layout.map (List.map SFrame.img) = sA.layout.map (List.map SFrame.img) →
      (fs.foldl (Part000.step W H S) sB).row
          = (fs.foldl (AsanaGalleryJs.step W H S) sA).row
      ∧ (fs.foldl (Part000.step W H S) sB).rowSize
          = (fs.foldl (AsanaGalleryJs.step W H S) sA).rowSize
      ∧ (fs.foldl (Part000.step W H S) sB).layout.map (List.map SFrame.img)
          = (fs.foldl (AsanaGalleryJs.step W H S) sA).layout.map (List.map SFrame.img) := by
  intro fs
  induction fs with
  | nil =>
    intro sA sB h1 h2 h3
    exact ⟨h1, h2, h3⟩
  | cons f t ih =>
    intro sA sB h1 h2 h3
    have hstep := ab_step W H S sA sB f h1 h2 h3
    rw [List.foldl_cons, List.foldl_cons]
    exact ih _ _ hstep.1 hstep.2.1 hstep.2.2

lemma aspect_bound (H w h ratio s S : ℚ) (hw : 0 < w) (hh : 0 < h)
    (hr0 : 0 < ratio) (hr1 : ratio ≤ 1) (hs0 : 0 ≤ s) (hsS : s ≤ S) :
    |((jsRound ((jsRound (H * w / h) : ℚ) * ratio) : ℚ) - s)
      - (jsRound (H * ratio) : ℚ) * (w / h)| ≤ 1 + w / h / 2 + S := by
  have hwh : 0 < w / h := div_pos hw hh
  have e1 := abs_le.mp (abs_jsRound_sub (H * w / h))
  have e3 := abs_le.mp (abs_jsRound_sub (H * ratio))
  have e2 := abs_le.mp (abs_jsRound_sub ((jsRound (H * w / h) : ℚ) * ratio))
  have m1 : ratio * ((jsRound (H * w / h) : ℚ) - H * w / h) ≤ ratio * (1 / 2) :=
    mul_le_mul_of_nonneg_left e1.2 hr0.le
  have m1' : ratio * (-(1 / 2)) ≤ ratio * ((jsRound (H * w / h) : ℚ) - H * w / h) :=
    mul_le_mul_of_nonneg_left e1.1 hr0.le
  have m2 : w / h * ((jsRound (H * ratio) : ℚ) - H * ratio) ≤ w / h * (1 / 2) :=
    mul_le_mul_of_nonneg_left e3.2 hwh.le
  have m2' : w / h * (-(1 / 2)) ≤ w / h * ((jsRound (H * ratio) : ℚ) - H * ratio) :=
    mul_le_mul_of_nonneg_left e3.1 hwh.le
  have key : ((jsRound ((jsRound (H * w / h) : ℚ) * ratio) : ℚ) - s)
        - (jsRound (H * ratio) : ℚ) * (w / h)
      = ((jsRound ((jsRound (H * w / h) : ℚ) * ratio) : ℚ)
          - (jsRound (H * w / h) : ℚ) * ratio)
        + ratio * ((jsRound (H * w / h) : ℚ) - H * w / h)
        - w / h * ((jsRound (H * ratio) : ℚ) - H * ratio) - s := by
    ring
  rw [key, abs_le]
  constructor
  · linarith [e2.1, m1', m2, hr1, hsS]
  · linarith [e2.2, m1, m2', hr1, hs0]

/-- C2: for every input sequence, flattening the output layout's rows in
row-major order yields exactly the input sequence of payload references,
in order and with the same count (no drops, no duplicates), in both
source variants of the engine. -/
theorem c2_order_preservation (fs : List Frame) (W H S : ℚ) :
    (AsanaGalleryJs.layoutFrames fs W H S).flatten.map SFrame.img = fs.map Frame.img
    ∧ (Part000.layoutFrames fs W H S).flatten.map SFrame.img = fs.map Frame.img := by
  have hA : (AsanaGalleryJs.layoutFrames fs W H S).flatten.map SFrame.img
      = fs.map Frame.img := by
    rw [AsanaGalleryJs.layoutFrames_eq_buildRows]
    simpa using AsanaGalleryJs.buildRows_flatten_img W H S fs 0 []
  refine ⟨hA, ?_⟩
  have hab := ab_foldl W H S fs
    { layout := [], rowSize := 0, row := [] }
    { layout := [], rowSize := 0, row := [] } rfl rfl rfl
  have himg : (Part000.layoutFrames fs W H S).map (List.map SFrame.img)
      = (AsanaGalleryJs.layoutFrames fs W H S).map (List.map SFrame.img) := by
    simp only [Part000.layoutFrames, AsanaGalleryJs.layoutFrames,
      Part000.stageAState, AsanaGalleryJs.stageAState]
    rw [hab.1]
    by_cases hl : 0 < (fs.foldl (AsanaGalleryJs.step W H S)
        { layout := [], rowSize := 0, row := [] }).row.length
    · simp [hl, hab.2.2]
    · simp [hl, hab.2.2]
  calc (Part000.layoutFrames fs W H S).flatten.map SFrame.img
      = ((Part000.layoutFrames fs W H S).map (List.map SFrame.img)).flatten := by
        rw [List.map_flatten]
    _ = ((AsanaGalleryJs.layoutFrames fs W H S).map (List.map SFrame.img)).flatten := by
        rw [himg]
    _ = (AsanaGalleryJs.layoutFrames fs W H S).flatten.map SFrame.img := by
        rw [List.map_flatten]
    _ = fs.map Frame.img := hA

/-- C5: one iteration of the Stage A loop behaves exactly as specified:
the target height is maxRowHeight on an empty buffer and the height of
the first buffered frame otherwise, the new width is
round (targetHeight * originalWidth / originalHeight), and the row is
finalized (Stage B applied, buffer and accumulator reset) exactly when
the accumulator reaches containerWidth after appending the frame. -/
theorem c5_stage_a_step (W H S : ℚ) (s : LoopState) (f : Frame) :
    AsanaGalleryJs.step W H S s f =
      (let t := targetHeight H s.row
       let newWidth := (jsRound (t * f.width / f.height) : ℚ)
       let newRow := s.row ++ [{ height := t, width := newWidth, img := f.img }]
       if W ≤ s.rowSize + newWidth then
         { layout := s.layout ++
             [AsanaGalleryJs.adjustRowWidth newRow (s.rowSize + newWidth) W S],
           rowSize := 0, row := [] }
       else
         { layout := s.layout, rowSize := s.rowSize + newWidth, row := newRow }) := by
  simp only [AsanaGalleryJs.step, adjustHeight_eq]

/-- C9: during Stage A every frame is buffered with height exactly
maxRowHeight: the final buffer only holds frames of height maxRowHeight,
and every row of the layout is either the image under Stage B of a
pre-correction row all of whose frames have height maxRowHeight, or the
trailing row, all of whose frames have height maxRowHeight. -/
theorem c9_uniform_height (fs : List Frame) (W H S : ℚ) :
    (∀ sf ∈ (AsanaGalleryJs.stageAState fs W H S).row, sf.height = H)
    ∧ ∀ q ∈ AsanaGalleryJs.layoutFrames fs W H S,
        (∃ r, (∀ sf ∈ r, sf.height = H) ∧ 0 < r.length ∧ W ≤ sumWidths r ∧
            q = AsanaGalleryJs.adjustRowWidth r (sumWidths r) W S)
          ∨ (∀ sf ∈ q, sf.height = H) := by
  constructor
  · exact AsanaGalleryJs.foldl_heights W H S fs
      { layout := [], rowSize := 0, row := [] } (by simp)
  · rw [AsanaGalleryJs.layoutFrames_eq_buildRows]
    exact AsanaGalleryJs.buildRows_heights W H S fs 0 []
      (by simp [sumWidths]) (by simp)

/-- C10: the two source variants produce layouts with identical row
structure: the same rows-to-payload assignment (hence the same number of
rows and the same row lengths), identical Stage A loop states, and the
same number of rows; they can differ only inside the Stage B dimensions
of completed rows. -/
theorem c10_variants_agree (fs : List Frame) (W H S : ℚ) :
    (Part000.layoutFrames fs W H S).map (List.map SFrame.img)
        = (AsanaGalleryJs.layoutFrames fs W H S).map (List.map SFrame.img)
    ∧ (Part000.stageAState fs W H S).row = (AsanaGalleryJs.stageAState fs W H S).row
    ∧ (Part000.stageAState fs W H S).rowSize
        = (AsanaGalleryJs.stageAState fs W H S).rowSize
    ∧ (Part000.layoutFrames fs W H S).length
        = (AsanaGalleryJs.layoutFrames fs W H S).length := by
  have hab := ab_foldl W H S fs
    { layout := [], rowSize := 0, row := [] }
    { layout := [], rowSize := 0, row := [] } rfl rfl rfl
  have himg : (Part000.layoutFrames fs W H S).map (List.map SFrame.img)
      = (AsanaGalleryJs.layoutFrames fs W H S).map (List.map SFrame.img) := by
    simp only [Part000.layoutFrames, AsanaGalleryJs.layoutFrames,
      Part000.stageAState, AsanaGalleryJs.stageAState]
    rw [hab.1]
    by_cases hl : 0 < (fs.foldl (AsanaGalleryJs.step W H S)
        { layout := [], rowSize := 0, row := [] }).row.length
    · simp [hl, hab.2.2]
    · simp [hl, hab.2.2]
  refine ⟨himg, hab.1, hab.2.1, ?_⟩
  have hlen := congrArg List.length himg
  simpa using hlen

/-- C6: when Stage A ends with a non-empty row buffer, that buffer
becomes the trailing row of the layout literally (no Stage B width
correction is applied to it), its frames keep their Stage A height
maxRowHeight, and its width sum stays strictly below containerWidth, so
the trailing row is not stretched to span the container. -/
theorem c6_trailing_row (fs : List Frame) (W H S : ℚ) (hW : 0 < W)
    (hne : (AsanaGalleryJs.stageAState fs W H S).row ≠ []) :
    AsanaGalleryJs.layoutFrames fs W H S
      = (AsanaGalleryJs.stageAState fs W H S).layout
        ++ [(AsanaGalleryJs.stageAState fs W H S).row]
    ∧ sumWidths (AsanaGalleryJs.stageAState fs W H S).row < W
    ∧ ∀ sf ∈ (AsanaGalleryJs.stageAState fs W H S).row, sf.height = H := by
  have hinv := AsanaGalleryJs.foldl_inv W H S hW fs
    { layout := [], rowSize := 0, row := [] }
    (by simp [sumWidths]) (by simpa using hW) (by simp)
  have h1 : (AsanaGalleryJs.stageAState fs W H S).rowSize
      = sumWidths (AsanaGalleryJs.stageAState fs W H S).row := hinv.1
  have h2 : (AsanaGalleryJs.stageAState fs W H S).rowSize < W := hinv.2.1
  refine ⟨?_, by rw [← h1]; exact h2, hinv.2.2⟩
  simp only [AsanaGalleryJs.layoutFrames]
  rw [if_pos (List.length_pos.mpr hne)]

/-- Witness for C6 at a concrete input: one 100 by 100 frame in a 200px
container leaves the buffer non-empty, and the layout is the untouched
trailing row. -/
theorem c6_trailing_row_witness :
    AsanaGalleryJs.layoutFrames [{ height := 100, width := 100, img := 0 }] 200 100 0
      = (AsanaGalleryJs.stageAState [{ height := 100, width := 100, img := 0 }] 200 100 0).layout
        ++ [(AsanaGalleryJs.stageAState [{ height := 100, width := 100, img := 0 }] 200 100 0).row]
    ∧ sumWidths (AsanaGalleryJs.stageAState
        [{ height := 100, width := 100, img := 0 }] 200 100 0).row < 200 :=
  ⟨(c6_trailing_row [{ height := 100, width := 100, img := 0 }] 200 100 0
      (by norm_num)
      (by norm_num [AsanaGalleryJs.stageAState, AsanaGalleryJs.step, targetHeight,
        adjustHeight, jsRound])).1,
   (c6_trailing_row [{ height := 100, width := 100, img := 0 }] 200 100 0
      (by norm_num)
      (by norm_num [AsanaGalleryJs.stageAState, AsanaGalleryJs.step, targetHeight,
        adjustHeight, jsRound])).2.1⟩

/-- C1 fails as stated: on two 100 by 100 frames followed by a third
(trailing) frame, with containerWidth 200 and spacing 10, the first
(non-last) row has final widths 90 + 90 and the code subtracts spacing
from both frames of the even-length row, so the claimed accounting
(final widths plus subtracted spacing plus (rowLength - 1) * spacing)
gives 210, off from containerWidth by 10, beyond the claimed tolerance
of one pixel per frame. -/
theorem c1_counterexample :
    (AsanaGalleryJs.layoutFrames
        [{ height := 100, width := 100, img := 0 },
         { height := 100, width := 100, img := 1 },
         { height := 100, width := 100, img := 2 }] 200 100 10).length = 2
    ∧ ¬ (|sumWidths ((AsanaGalleryJs.layoutFrames
            [{ height := 100, width := 100, img := 0 },
             { height := 100, width := 100, img := 1 },
             { height := 100, width := 100, img := 2 }] 200 100 10).getD 0 [])
          + (totalSubtracted ((AsanaGalleryJs.layoutFrames
              [{ height := 100, width := 100, img := 0 },
               { height := 100, width := 100, img := 1 },
               { height := 100, width := 100, img := 2 }] 200 100 10).getD 0 []).length 10
            + ((((AsanaGalleryJs.layoutFrames
                [{ height := 100, width := 100, img := 0 },
                 { height := 100, width := 100, img := 1 },
                 { height := 100, width := 100, img := 2 }] 200 100 10).getD 0 []).length : ℚ)
              - 1) * 10)
          - 200|
        ≤ (((AsanaGalleryJs.layoutFrames
            [{ height := 100, width := 100, img := 0 },
             { height := 100, width := 100, img := 1 },
             { height := 100, width := 100, img := 2 }] 200 100 10).getD 0 []).length : ℚ)) := by
  constructor
  · norm_num [AsanaGalleryJs.layoutFrames, AsanaGalleryJs.stageAState,
      AsanaGalleryJs.step, AsanaGalleryJs.adjustRowWidth, targetHeight,
      adjustHeight, jsRound]
  · norm_num [AsanaGalleryJs.layoutFrames, AsanaGalleryJs.stageAState,
      AsanaGalleryJs.step, AsanaGalleryJs.adjustRowWidth, targetHeight,
      adjustHeight, jsRound, sumWidths, totalSubtracted, List.range_succ,
      abs_le]

/-- C1 amended: for every row except possibly the last, the sum of the
row's final frame widths plus the total spacing actually subtracted by
the code's parity rule equals containerWidth within one pixel per frame.
(The code's subtraction total is not (rowLength - 1) * spacing: an
even-length row has spacing subtracted from every frame, an odd row of
length above one from the odd positions only, so adding
(rowLength - 1) * spacing of presentation gaps on top does not recover
containerWidth in general.) -/
theorem c1_row_width_law (fs : List Frame) (W H S : ℚ) (hW : 0 < W) :
    ∀ i, i + 1 < (AsanaGalleryJs.layoutFrames fs W H S).length →
      |sumWidths ((AsanaGalleryJs.layoutFrames fs W H S).getD i [])
          + totalSubtracted ((AsanaGalleryJs.layoutFrames fs W H S).getD i []).length S
          - W|
        ≤ (((AsanaGalleryJs.layoutFrames fs W H S).getD i []).length : ℚ) := by
  intro i hi
  rw [AsanaGalleryJs.layoutFrames_eq_buildRows] at hi ⊢
  obtain ⟨r, hlen, hge, heq⟩ :=
    AsanaGalleryJs.buildRows_completed W H S fs 0 [] (by simp [sumWidths]) i hi
  rw [heq, AsanaGalleryJs.adjustRowWidth_sum, AsanaGalleryJs.adjustRowWidth_length]
  have hR : 0 < sumWidths r := lt_of_lt_of_le hW hge
  have hcancel : roundedSum r (W / sumWidths r) - totalSubtracted r.length S
        + totalSubtracted r.length S - W
      = roundedSum r (W / sumWidths r) - W := by
    ring
  rw [hcancel]
  have hb := roundedSum_bound (W / sumWidths r) r
  rw [div_mul_cancel₀ W hR.ne'] at hb
  have hhalf : (r.length : ℚ) / 2 ≤ (r.length : ℚ) := by
    have h0 : (0 : ℚ) ≤ (r.length : ℚ) := Nat.cast_nonneg _
    linarith
  exact le_trans hb hhalf

/-- Witness for the amended C1 at the concrete counterexample input: the
first row's final widths (90 + 90) plus the code's subtracted total (20)
give exactly containerWidth 200, within the two-pixel tolerance. -/
theorem c1_row_width_law_witness :
    |sumWidths ((AsanaGalleryJs.layoutFrames
          [{ height := 100, width := 100, img := 0 },
           { height := 100, width := 100, img := 1 },
           { height := 100, width := 100, img := 2 }] 200 100 10).getD 0 [])
        + totalSubtracted ((AsanaGalleryJs.layoutFrames
            [{ height := 100, width := 100, img := 0 },
             { height := 100, width := 100, img := 1 },
             { height := 100, width := 100, img := 2 }] 200 100 10).getD 0 []).length 10
        - 200|
      ≤ (((AsanaGalleryJs.layoutFrames
          [{ height := 100, width := 100, img := 0 },
           { height := 100, width := 100, img := 1 },
           { height := 100, width := 100, img := 2 }] 200 100 10).getD 0 []).length : ℚ) :=
  c1_row_width_law
    [{ height := 100, width := 100, img := 0 },
     { height := 100, width := 100, img := 1 },
     { height := 100, width := 100, img := 2 }] 200 100 10 (by norm_num) 0
    (by norm_num [AsanaGalleryJs.layoutFrames, AsanaGalleryJs.stageAState,
      AsanaGalleryJs.step, AsanaGalleryJs.adjustRowWidth, targetHeight,
      adjustHeight, jsRound])

/-- C3 fails as stated: the code contains no InvalidFrame error and no
validation at all.  A frame declared 200 high and 0 wide flows straight
through the engine, which returns an ordinary layout holding a
degenerate scaled frame of width 0 instead of failing. -/
theorem c3_counterexample :
    AsanaGalleryJs.layoutFrames [{ height := 200, width := 0, img := 3 }] 500 120 10
      = [[{ height := 120, width := 0, img := 3 }]] := by
  norm_num [AsanaGalleryJs.layoutFrames, AsanaGalleryJs.stageAState,
    AsanaGalleryJs.step, targetHeight, adjustHeight, jsRound]

/-- C3 amended: the engine performs no validation of frame geometry.  A
frame of width 0 (any declared height) is processed without any error
being raised: Stage A assigns it the working height and scaled width 0,
and it is returned inside the layout. -/
theorem c3_no_validation (h : ℚ) (img : ℕ) (W H S : ℚ) (hW : 0 < W) :
    AsanaGalleryJs.layoutFrames [{ height := h, width := 0, img := img }] W H S
      = [[{ height := H, width := 0, img := img }]] := by
  have hnot : ¬ (W ≤ 0) := not_le.mpr hW
  norm_num [AsanaGalleryJs.layoutFrames, AsanaGalleryJs.stageAState,
    AsanaGalleryJs.step, targetHeight, adjustHeight, jsRound, hnot]

/-- Witness for the amended C3 at a concrete input. -/
theorem c3_no_validation_witness :
    AsanaGalleryJs.layoutFrames [{ height := 100, width := 0, img := 0 }] 100 50 0
      = [[{ height := 50, width := 0, img := 0 }]] :=
  c3_no_validation 100 0 100 50 0 (by norm_num)

/-- C7 fails as stated: with the valid non-integer parameter
maxRowHeight = 10.5 and containerWidth 11, a single 100 by 100 frame is
rescaled in Stage A to height 10.5 and width 11, the row completes
exactly, and Stage B rounds the height up to 11, which exceeds both the
pre-correction height 10.5 and maxRowHeight. -/
theorem c7_counterexample :
    AsanaGalleryJs.layoutFrames [{ height := 100, width := 100, img := 0 }] 11 (21 / 2) 0
      = [[{ height := 11, width := 11, img := 0 }]]
    ∧ ¬ ((11 : ℚ) ≤ 21 / 2) := by
  constructor
  · norm_num [AsanaGalleryJs.layoutFrames, AsanaGalleryJs.stageAState,
      AsanaGalleryJs.step, AsanaGalleryJs.adjustRowWidth, targetHeight,
      adjustHeight, jsRound]
  · norm_num

/-- C7 amended: pre-correction heights always equal maxRowHeight (see
c9_uniform_height), and when maxRowHeight is an integer Stage B can only
shrink heights, so every output frame's height is at most maxRowHeight.
For fractional maxRowHeight, Stage B rounding can exceed it by at most
half a pixel, as the counterexample shows. -/
theorem c7_height_bound (fs : List Frame) (W S : ℚ) (k : ℤ) (hk : 0 < k) (hW : 0 < W) :
    ∀ q ∈ AsanaGalleryJs.layoutFrames fs W (k : ℚ) S, ∀ sf ∈ q,
      sf.height ≤ (k : ℚ) := by
  intro q hq sf hsf
  rw [AsanaGalleryJs.layoutFrames_eq_buildRows] at hq
  rcases AsanaGalleryJs.buildRows_heights W (k : ℚ) S fs 0 []
      (by simp [sumWidths]) (by simp) q hq with ⟨r, hr, hlen, hge, heq⟩ | hq'
  · rw [heq] at hsf
    simp only [AsanaGalleryJs.adjustRowWidth] at hsf
    obtain ⟨i, hilt, hFi⟩ := List.exists_of_mem_mapIdx hsf
    have hh : r[i].height = (k : ℚ) := hr r[i] (List.getElem_mem hilt)
    rw [← hFi]
    have hRpos : 0 < sumWidths r := lt_of_lt_of_le hW hge
    have hr1 : W / sumWidths r ≤ 1 := (div_le_one hRpos).mpr hge
    have hle : (k : ℚ) * (W / sumWidths r) ≤ (k : ℚ) :=
      mul_le_of_le_one_right (by exact_mod_cast hk.le) hr1
    have hjs := jsRound_le_of_le hle
    show (jsRound (r[i].height * (W / sumWidths r)) : ℚ) ≤ (k : ℚ)
    rw [hh]
    exact_mod_cast hjs
  · exact le_of_eq (hq' sf hsf)

/-- Witness for the amended C7 at a concrete input: one square frame,
container 10, integer maxRowHeight 10; the single completed row has
height 10, within bound. -/
theorem c7_height_bound_witness :
    ({ height := 10, width := 10, img := 0 } : SFrame).height ≤ ((10 : ℤ) : ℚ) :=
  c7_height_bound [{ height := 100, width := 100, img := 0 }] 10 0 10
    (by norm_num) (by norm_num)
    [{ height := 10, width := 10, img := 0 }]
    (by norm_num [AsanaGalleryJs.layoutFrames, AsanaGalleryJs.stageAState,
      AsanaGalleryJs.step, AsanaGalleryJs.adjustRowWidth, targetHeight,
      adjustHeight, jsRound])
    { height := 10, width := 10, img := 0 } (by norm_num)

/-- C8 fails as stated: the src/unnamed/part_000 variant uses Math.floor
in its Stage B pass.  On one 150 by 100 frame in a 100px container it
emits height 66 = floor (100 * (100/150)), whereas round-to-nearest of
the same quantity is 67, so not every code path of the engine rounds to
nearest. -/
theorem c8_counterexample :
    Part000.layoutFrames [{ height := 100, width := 150, img := 0 }] 100 100 0
      = [[{ height := 66, width := 100, img := 0 }]]
    ∧ (jsRound ((100 : ℚ) * (100 / 150)) : ℚ) = 67
    ∧ (66 : ℚ) ≠ 67 := by
  refine ⟨?_, ?_, by norm_num⟩
  · norm_num [Part000.layoutFrames, Part000.stageAState, Part000.step,
      Part000.adjustRowWidth, Part000.getSpaceToUse, targetHeight,
      adjustHeight, jsRound]
  · norm_num [jsRound]

/-- C8 amended: Stage A (shared adjustHeight) uses round-to-nearest in
both variants; Stage B uses round-to-nearest in the
src/src/AsanaGallery.js variant but integer floor in the
src/unnamed/part_000 variant, for both the corrected heights and widths. -/
theorem c8_rounding_modes :
    (∀ (f : Frame) (m : ℚ),
      (adjustHeight f m).width = (jsRound (m * f.width / f.height) : ℚ))
    ∧ (∀ (row : List SFrame) (rowSize W S : ℚ),
        AsanaGalleryJs.adjustRowWidth row rowSize W S = row.mapIdx fun index column =>
          { height := (jsRound (column.height * (W / rowSize)) : ℚ),
            width := (jsRound (column.width * (W / rowSize)) : ℚ) -
              (if row.length % 2 = 0 ∨ (1 < row.length ∧ (index + 1) % 2 = 1)
                then S else 0),
            img := column.img })
    ∧ (∀ (row : List SFrame) (rowSize W S : ℚ),
        Part000.adjustRowWidth row rowSize W S = row.mapIdx fun index column =>
          { height := (⌊column.height * (W / rowSize)⌋ : ℚ),
            width := (⌊column.width * (W / rowSize)⌋ : ℚ)
              - Part000.getSpaceToUse row index S,
            img := column.img }) := by
  refine ⟨?_, ?_, ?_⟩
  · intro f m
    rw [adjustHeight_eq]
  · intro row R W S
    rfl
  · intro row R W S
    rfl

/-- C4 fails as stated: with spacing 50, two 100 by 100 frames in a
200px container complete a row at scale 1, and the code subtracts the
50px spacing from each frame's width, producing a 50 by 100 output frame
for a square input.  Its aspect ratio error is 1/2, far beyond any
tolerance that accounts only for one pixel of rounding at each rescale
stage (the generous rounding-only tolerance here evaluates to 1/25). -/
theorem c4_counterexample :
    ((AsanaGalleryJs.layoutFrames
        [{ height := 100, width := 100, img := 0 },
         { height := 100, width := 100, img := 1 }] 200 100 50).getD 0 []).getD 0
        { height := 0, width := 0, img := 0 }
      = { height := 100, width := 50, img := 0 }
    ∧ ¬ (|(50 : ℚ) / 100 - 100 / 100| ≤ roundingTolerance 100 100 100) := by
  constructor
  · norm_num [AsanaGalleryJs.layoutFrames, AsanaGalleryJs.stageAState,
      AsanaGalleryJs.step, AsanaGalleryJs.adjustRowWidth, targetHeight,
      adjustHeight, jsRound]
  · norm_num [roundingTolerance, abs_le]

/-- C4 amended: every output frame is within rounding tolerance of the
aspect ratio of an input frame carrying its payload, once the spacing
subtraction is also accounted for: the width deviates from the
aspect-correct width (at the frame's output height) by at most one pixel
of rounding per stage, half a pixel amplified by the original aspect
ratio, plus at most the subtracted spacing.  The spacing term is not a
rounding effect and cannot be dropped, as the counterexample shows. -/
theorem c4_aspect_ratio (fs : List Frame) (W H S : ℚ)
    (hpos : ∀ f ∈ fs, 0 < f.width ∧ 0 < f.height) (hW : 0 < W) (hS : 0 ≤ S) :
    ∀ q ∈ AsanaGalleryJs.layoutFrames fs W H S, ∀ sf ∈ q,
      ∃ f, f ∈ fs ∧ sf.img = f.img ∧
        |sf.width - sf.height * (f.width / f.height)|
          ≤ 1 + f.width / f.height / 2 + S := by
  intro q hq sf hsf
  rw [AsanaGalleryJs.layoutFrames_eq_buildRows] at hq
  rcases AsanaGalleryJs.buildRows_good W H S fs fs
      (fun f hf => ⟨hf, hpos f hf⟩) 0 [] (by simp [sumWidths])
      (by intro sf h; simp at h) q hq with ⟨r, hgood, hlen, hge, heq⟩ | hgood
  · rw [heq] at hsf
    simp only [AsanaGalleryJs.adjustRowWidth] at hsf
    obtain ⟨i, hilt, hFi⟩ := List.exists_of_mem_mapIdx hsf
    obtain ⟨hh, f, hfmem, himg, hfw, hfh, hwidth⟩ := hgood r[i] (List.getElem_mem hilt)
    have hRpos : 0 < sumWidths r := lt_of_lt_of_le hW hge
    have hr0 : 0 < W / sumWidths r := div_pos hW hRpos
    have hr1 : W / sumWidths r ≤ 1 := (div_le_one hRpos).mpr hge
    refine ⟨f, hfmem, ?_, ?_⟩
    · rw [← hFi]
      exact himg
    · rw [← hFi]
      show |((jsRound (r[i].width * (W / sumWidths r)) : ℚ) -
          (if r.length % 2 = 0 ∨ (1 < r.length ∧ (i + 1) % 2 = 1) then S else 0))
          - (jsRound (r[i].height * (W / sumWidths r)) : ℚ) * (f.width / f.height)|
        ≤ 1 + f.width / f.height / 2 + S
      rw [hh, hwidth]
      by_cases hcase : r.length % 2 = 0 ∨ (1 < r.length ∧ (i + 1) % 2 = 1)
      · rw [if_pos hcase]
        exact aspect_bound H f.width f.height (W / sumWidths r) S S
          hfw hfh hr0 hr1 hS le_rfl
      · rw [if_neg hcase]
        exact aspect_bound H f.width f.height (W / sumWidths r) 0 S
          hfw hfh hr0 hr1 le_rfl hS
  · obtain ⟨hh, f, hfmem, himg, hfw, hfh, hwidth⟩ := hgood sf hsf
    refine ⟨f, hfmem, himg, ?_⟩
    rw [hh, hwidth]
    have hwh : 0 < f.width / f.height := div_pos hfw hfh
    have hb := abs_jsRound_sub (H * f.width / f.height)
    have hassoc : H * (f.width / f.height) = H * f.width / f.height :=
      (mul_div_assoc H f.width f.height).symm
    rw [hassoc]
    calc |(jsRound (H * f.width / f.height) : ℚ) - H * f.width / f.height|
        ≤ 1 / 2 := hb
      _ ≤ 1 + f.width / f.height / 2 + S := by linarith

/-- Witness for the amended C4 at the concrete counterexample input: the
50 by 100 output frame is within the bound once the subtracted spacing
50 is accounted for. -/
theorem c4_aspect_ratio_witness :
    ∃ f, f ∈ [({ height := 100, width := 100, img := 0 } : Frame),
        { height := 100, width := 100, img := 1 }]
      ∧ ({ height := 100, width := 50, img := 0 } : SFrame).img = f.img
      ∧ |({ height := 100, width := 50, img := 0 } : SFrame).width
          - ({ height := 100, width := 50, img := 0 } : SFrame).height
            * (f.width / f.height)|
        ≤ 1 + f.width / f.height / 2 + 50 :=
  c4_aspect_ratio
    [{ height := 100, width := 100, img := 0 }, { height := 100, width := 100, img := 1 }]
    200 100 50
    (by norm_num [List.forall_mem_cons]) (by norm_num) (by norm_num)
    [{ height := 100, width := 50, img := 0 }, { height := 100, width := 50, img := 1 }]
    (by norm_num [AsanaGalleryJs.layoutFrames, AsanaGalleryJs.stageAState,
      AsanaGalleryJs.step, AsanaGalleryJs.adjustRowWidth, targetHeight,
      adjustHeight, jsRound])
    { height := 100, width := 50, img := 0 } (by norm_num)
